import Mathlib

/-!
Verification of the Dockerfile-Generator service (`main.py`).

The development embeds the request schema (`DockerfileRequest`), the prompt
builder (`create_prompt`) and the `POST /generate` endpoint logic
(`generate_dockerfile`) as executable Lean definitions, and proves the
behavioural properties of the prompt builder and of the endpoint error
handling.  Strings are modelled with Lean `String`; reasoning happens on the
underlying character lists.  Python truthiness of optional string fields
(`if request.build_command:`) is modelled by `truthy`, which is false both
for an absent field and for an empty string.
-/

/-- The validated request body (`DockerfileRequest` pydantic model):
five required fields and two optional fields defaulting to `None`.
The pydantic declaration constrains `port` only to be an integer. -/
structure DockerfileRequest where
  language : String
  package_manager : String
  dependency_file : String
  port : Int
  start_command : String
  build_command : Option String := none
  base_image : Option String := none
deriving DecidableEq, Repr

/-- Python truthiness of an optional string: `None` and `""` are falsy. -/
def truthy : Option String → Bool
  | none => false
  | some s => !(s == "")

/-- The header and details block of the prompt: the first f-string of
`create_prompt` (source lines 37-44). -/
def promptDetails (request : DockerfileRequest) : String :=
  "Generate a secure, production-ready, multi-stage Dockerfile for a **" ++
    request.language ++ "** application using **" ++ request.package_manager ++
    "**.\n\n**Application Details:**\n- The dependency file is named `" ++
    request.dependency_file ++
    "`.\n- The application runs on and exposes port `" ++ toString request.port ++
    "`.\n- The command to start the application is `" ++ request.start_command ++ "`.\n"

/-- The fixed best-practice directive block appended at the end of every
prompt (source lines 54-62), written as the concatenation of its source
lines. -/
def bestPractices : String :=
  "\n**Instructions & Best Practices to Follow:**\n" ++
  "- Use multi-stage builds. The first stage should build dependencies, and the final stage should be a lean image with only the production code and necessary dependencies.\n" ++
  "- Do not run as the `root` user. Create a non-root user (e.g., \u0027appuser\u0027) and switch to it.\n" ++
  "- Use a `.dockerignore` file (provide an example of what it should contain in a comment).\n" ++
  "- Leverage Docker layer caching by copying dependency files and installing packages before copying the rest of the source code.\n" ++
  "- Ensure all permissions are set correctly for the non-root user.\n" ++
  "- The final output should be only the raw Dockerfile content, without any explanations or markdown formatting like ```dockerfile."

/-- `create_prompt` (source lines 33-63): the details block, then the
optional build-command line (only when `build_command` is truthy), then the
optional base-image line (only when `base_image` is truthy), then the fixed
best-practice block. -/
def create_prompt (request : DockerfileRequest) : String :=
  promptDetails request ++
    (if truthy request.build_command then
      "- The build command is `" ++ request.build_command.getD "" ++ "`.\n"
    else "") ++
    (if truthy request.base_image then
      "- The user has requested a base image of `" ++ request.base_image.getD "" ++
        "`. Use this if it is a valid and secure choice, otherwise select a suitable slim or alpine official image.\n"
    else "") ++
  bestPractices

/-! ## The HTTP layer model -/

/-- A JSON value as far as this schema is concerned. -/
inductive Json where
  | str (s : String)
  | num (n : Int)
  | null
deriving DecidableEq, Repr

/-- An incoming request payload before validation: each schema field is
present with some JSON value, or absent. -/
structure RawRequest where
  language : Option Json := none
  package_manager : Option Json := none
  dependency_file : Option Json := none
  port : Option Json := none
  start_command : Option Json := none
  build_command : Option Json := none
  base_image : Option Json := none
deriving DecidableEq, Repr

/-- Modelled from the spec: the framework check for a required text field
(absent or non-text values are reported under the field name). -/
def checkStr (nm : String) (v : Option Json) : List String :=
  match v with
  | some (Json.str _) => []
  | _ => [nm]

/-- Modelled from the spec: the framework check for the required integer
`port` field. -/
def checkInt (nm : String) (v : Option Json) : List String :=
  match v with
  | some (Json.num _) => []
  | _ => [nm]

/-- Modelled from the spec: the framework check for an optional text field
(absent and `null` are fine and mean `None`). -/
def checkOptStr (nm : String) (v : Option Json) : List String :=
  match v with
  | none => []
  | some Json.null => []
  | some (Json.str _) => []
  | some (Json.num _) => [nm]

/-- Modelled from the spec: the names of the fields a raw payload fails
validation on, in schema declaration order. -/
def reqErrors (raw : RawRequest) : List String :=
  checkStr "language" raw.language ++
  checkStr "package_manager" raw.package_manager ++
  checkStr "dependency_file" raw.dependency_file ++
  checkInt "port" raw.port ++
  checkStr "start_command" raw.start_command ++
  checkOptStr "build_command" raw.build_command ++
  checkOptStr "base_image" raw.base_image

/-- Extract a validated required text field. -/
def getStr (v : Option Json) : String :=
  match v with
  | some (Json.str s) => s
  | _ => ""

/-- Extract the validated integer port. -/
def getInt (v : Option Json) : Int :=
  match v with
  | some (Json.num n) => n
  | _ => 0

/-- Extract a validated optional text field. -/
def getOptStr (v : Option Json) : Option String :=
  match v with
  | some (Json.str s) => some s
  | _ => none

/-- Modelled from the spec: request validation happens wholly at
construction of the `DockerfileRequest` — it either yields the validated
descriptor or fails with the list of offending field names. -/
def validate (raw : RawRequest) : Except (List String) DockerfileRequest :=
  if reqErrors raw = [] then
    Except.ok
      { language := getStr raw.language
        package_manager := getStr raw.package_manager
        dependency_file := getStr raw.dependency_file
        port := getInt raw.port
        start_command := getStr raw.start_command
        build_command := getOptStr raw.build_command
        base_image := getOptStr raw.base_image }
  else
    Except.error (reqErrors raw)

/-- Modelled from the spec: the outcome of one SDK call
(`model.generate_content`): either the call raises, or it returns a
response whose `text` attribute is read with `getattr(response, "text",
None)`. -/
inductive GenResult where
  | raised (msg : String)
  | responded (text : Option String)
deriving DecidableEq, Repr

/-- An HTTP response of the endpoint: 200 with the dockerfile, a 422
validation error naming the offending fields, or a 500 error with a
detail message. -/
inductive Resp where
  | ok (dockerfile : String)
  | validationError (fields : List String)
  | serverError (detail : String)
deriving DecidableEq, Repr

/-- HTTP status code of a response. -/
def statusOf : Resp → Nat
  | Resp.ok _ => 200
  | Resp.validationError _ => 422
  | Resp.serverError _ => 500

/-- The fixed detail message of the 500 handler (source line 96). -/
def genericDetail : String := "Failed to generate Dockerfile from the AI model."

/-- The `POST /generate` endpoint (source lines 66-96): validation first
(the handler body never runs on invalid input), then the prompt is built
and sent to the model; a raised error, an absent `text` attribute or a
falsy (empty) text all fall into the `except` branch, which answers 500
with the fixed generic detail. -/
def generate_dockerfile (raw : RawRequest) (invoke : String → GenResult) : Resp :=
  match validate raw with
  | Except.error errs => Resp.validationError errs
  | Except.ok request =>
    match invoke (create_prompt request) with
    | GenResult.raised _ => Resp.serverError genericDetail
    | GenResult.responded none => Resp.serverError genericDetail
    | GenResult.responded (some t) =>
        if t == "" then Resp.serverError genericDetail else Resp.ok t

/-- A model-call outcome the endpoint treats as a generation failure. -/
def isGenFailure : GenResult → Bool
  | GenResult.raised _ => true
  | GenResult.responded none => true
  | GenResult.responded (some t) => t == ""

/-! ## Substring machinery on character lists -/

/-- Count of the positions of `s` at which `pat` occurs. -/
def occCount : List Char → List Char → Nat
  | [], pat => if pat.isEmpty then 1 else 0
  | c :: rest, pat =>
      (if List.isPrefixOf pat (c :: rest) then 1 else 0) + occCount rest pat

theorem within_refl (l : List Char) : l <:+: l := ⟨[], [], by simp⟩

theorem within_append_left {m a : List Char} (b : List Char) (h : m <:+: a) :
    m <:+: a ++ b := by
  obtain ⟨s, t, rfl⟩ := h
  exact ⟨s, t ++ b, by simp⟩

theorem within_append_right {m b : List Char} (a : List Char) (h : m <:+: b) :
    m <:+: a ++ b := by
  obtain ⟨s, t, rfl⟩ := h
  exact ⟨a ++ s, t, by simp⟩

theorem within_trans {a b c : List Char} (h1 : a <:+: b) (h2 : b <:+: c) :
    a <:+: c := by
  obtain ⟨s, t, rfl⟩ := h1
  obtain ⟨u, v, rfl⟩ := h2
  exact ⟨u ++ s, t ++ v, by simp⟩

theorem cons_pre_split {m : List Char} {x : Char} {r : List Char}
    (h : m <+: x :: r) : m = [] ∨ ∃ m', m = x :: m' ∧ m' <+: r := by
  cases m with
  | nil => exact Or.inl rfl
  | cons y m' =>
    obtain ⟨t, ht⟩ := h
    rw [List.cons_append] at ht
    injection ht with h1 h2
    exact Or.inr ⟨m', by rw [h1], ⟨t, h2⟩⟩

theorem pre_append_cons {m a : List Char} {c : Char} {b : List Char}
    (h : m <+: a ++ c :: b) : m <+: a ∨ c ∈ m := by
  induction a generalizing m with
  | nil =>
    rcases cons_pre_split h with rfl | ⟨m', rfl, _⟩
    · exact Or.inl List.nil_prefix
    · exact Or.inr (List.mem_cons_self _ _)
  | cons x a ih =>
    rw [List.cons_append] at h
    rcases cons_pre_split h with rfl | ⟨m', rfl, hm'⟩
    · exact Or.inl List.nil_prefix
    · rcases ih hm' with h1 | h2
      · obtain ⟨t, rfl⟩ := h1
        exact Or.inl ⟨t, rfl⟩
      · exact Or.inr (List.mem_cons_of_mem _ h2)

theorem within_cons_elim {m : List Char} {x : Char} {l : List Char}
    (h : m <:+: x :: l) : m <+: x :: l ∨ m <:+: l := by
  obtain ⟨s, t, hst⟩ := h
  cases s with
  | nil =>
    exact Or.inl ⟨t, by simpa using hst⟩
  | cons y s =>
    rw [List.cons_append, List.cons_append] at hst
    injection hst with h1 h2
    exact Or.inr ⟨s, t, h2⟩

theorem within_append_cons {m a : List Char} {c : Char} {b : List Char}
    (h : m <:+: a ++ c :: b) : c ∈ m ∨ m <:+: a ∨ m <:+: b := by
  induction a generalizing m with
  | nil =>
    rw [List.nil_append] at h
    rcases within_cons_elim h with hp | hi
    · rcases cons_pre_split hp with rfl | ⟨m', rfl, _⟩
      · exact Or.inr (Or.inl ⟨[], [], by simp⟩)
      · exact Or.inl (List.mem_cons_self _ _)
    · exact Or.inr (Or.inr hi)
  | cons x a ih =>
    rw [List.cons_append] at h
    rcases within_cons_elim h with hp | hi
    · rcases cons_pre_split hp with rfl | ⟨m', rfl, hm'⟩
      · exact Or.inr (Or.inl ⟨[], x :: a, by simp⟩)
      · rcases pre_append_cons hm' with h1 | h2
        · obtain ⟨t, rfl⟩ := h1
          exact Or.inr (Or.inl ⟨[], t, by simp⟩)
        · exact Or.inl (List.mem_cons_of_mem _ h2)
    · rcases ih hi with h1 | h2 | h3
      · exact Or.inl h1
      · obtain ⟨s, t, rfl⟩ := h2
        exact Or.inr (Or.inl ⟨x :: s, t, by simp⟩)
      · exact Or.inr (Or.inr h3)

theorem not_within_append_cons {m a : List Char} {c : Char} {b : List Char}
    (hc : c ∉ m) (ha : ¬ m <:+: a) (hb : ¬ m <:+: b) :
    ¬ m <:+: a ++ c :: b := by
  intro h
  rcases within_append_cons h with h1 | h2 | h3
  · exact hc h1
  · exact ha h2
  · exact hb h3

/-! ## A segmented view of the prompt

Every interpolated value in the prompt template is flanked by one of the
characters `*`, `` ` `` or a newline.  `flatSegs` assembles a list of
(chunk, flanking character) pairs plus a final chunk; a pattern free of all
flanking characters occurs in the assembled text only if it occurs in one
of the chunks. -/

def flatSegs : List (String × Char) → String → List Char
  | [], last => last.data
  | (s, c) :: ps, last => s.data ++ c :: flatSegs ps last

theorem flatSegs_append (ps qs : List (String × Char)) (last : String) :
    flatSegs (ps ++ qs) last = flatSegs ps "" ++ flatSegs qs last := by
  induction ps with
  | nil => simp [flatSegs]
  | cons p ps ih =>
    cases p with
    | mk s c => simp [flatSegs, ih]

theorem not_within_flatSegs (m : List Char) :
    ∀ (ps : List (String × Char)) (last : String),
      (∀ p ∈ ps, p.2 ∉ m ∧ ¬ m <:+: p.1.data) →
      ¬ m <:+: last.data → ¬ m <:+: flatSegs ps last := by
  intro ps
  induction ps with
  | nil =>
    intro last _ hl
    simpa [flatSegs] using hl
  | cons p ps ih =>
    intro last h hl
    cases p with
    | mk s c =>
      have hhead := h (s, c) (List.mem_cons_self _ _)
      have htail := ih last (fun q hq => h q (List.mem_cons_of_mem _ hq)) hl
      exact not_within_append_cons hhead.1 hhead.2 htail

theorem data_append (s t : String) : (s ++ t).data = s.data ++ t.data := rfl

/-- The backtick character. -/
def btick : Char := '\u0060'

/-- The segments of the details block: every interpolated value sits
between flanking `*`, backtick or newline characters. -/
def headSegs (r : DockerfileRequest) : List (String × Char) :=
  [("Generate a secure, production-ready, multi-stage Dockerfile for a *", '*'),
   (r.language, '*'),
   ("* application using *", '*'),
   (r.package_manager, '*'),
   ("*.", '\n'),
   ("", '\n'),
   ("**Application Details:**", '\n'),
   ("- The dependency file is named ", btick),
   (r.dependency_file, btick),
   (".", '\n'),
   ("- The application runs on and exposes port ", btick),
   (toString r.port, btick),
   (".", '\n'),
   ("- The command to start the application is ", btick),
   (r.start_command, btick),
   (".", '\n')]

/-- The segments of the optional build-command line. -/
def buildSegs (bc : Option String) : List (String × Char) :=
  if truthy bc then
    [("- The build command is ", btick), (bc.getD "", btick), (".", '\n')]
  else []

/-- The segments of the optional base-image line. -/
def baseSegs (bi : Option String) : List (String × Char) :=
  if truthy bi then
    [("- The user has requested a base image of ", btick), (bi.getD "", btick),
     (". Use this if it is a valid and secure choice, otherwise select a suitable slim or alpine official image.", '\n')]
  else []

/-- The segments of the best-practice block (its final chunk is the
`flatSegs` tail `"dockerfile."`). -/
def tailSegs : List (String × Char) :=
  [("", '\n'),
   ("**Instructions & Best Practices to Follow:**", '\n'),
   ("- Use multi-stage builds. The first stage should build dependencies, and the final stage should be a lean image with only the production code and necessary dependencies.", '\n'),
   ("- Do not run as the ", btick),
   ("root", btick),
   (" user. Create a non-root user (e.g., \u0027appuser\u0027) and switch to it.", '\n'),
   ("- Use a ", btick),
   (".dockerignore", btick),
   (" file (provide an example of what it should contain in a comment).", '\n'),
   ("- Leverage Docker layer caching by copying dependency files and installing packages before copying the rest of the source code.", '\n'),
   ("- Ensure all permissions are set correctly for the non-root user.", '\n'),
   ("- The final output should be only the raw Dockerfile content, without any explanations or markdown formatting like ", btick),
   ("", btick),
   ("", btick)]

/-- The complete segmented view of a prompt. -/
def promptSegs (r : DockerfileRequest) : List (String × Char) :=
  headSegs r ++ buildSegs r.build_command ++ baseSegs r.base_image ++ tailSegs

set_option maxRecDepth 8000

theorem eql0 : ("" : String).data = [] := rfl

theorem eql1 : ("Generate a secure, production-ready, multi-stage Dockerfile for a **" : String).data
    = ("Generate a secure, production-ready, multi-stage Dockerfile for a *" : String).data ++ ['*'] := by decide

theorem eql2 : ("** application using **" : String).data
    = '*' :: ("* application using *" : String).data ++ ['*'] := by decide

theorem eql3 : ("**.\n\n**Application Details:**\n- The dependency file is named `" : String).data
    = '*' :: ("*." : String).data ++ '\n' :: '\n' :: ("**Application Details:**" : String).data
      ++ '\n' :: ("- The dependency file is named " : String).data ++ [btick] := by decide

theorem eql4 : ("`.\n- The application runs on and exposes port `" : String).data
    = btick :: ("." : String).data ++ '\n' :: ("- The application runs on and exposes port " : String).data
      ++ [btick] := by decide

theorem eql5 : ("`.\n- The command to start the application is `" : String).data
    = btick :: ("." : String).data ++ '\n' :: ("- The command to start the application is " : String).data
      ++ [btick] := by decide

theorem eql6 : ("`.\n" : String).data = btick :: ("." : String).data ++ ['\n'] := by decide

theorem eql7 : ("- The build command is `" : String).data
    = ("- The build command is " : String).data ++ [btick] := by decide

theorem eql8 : ("- The user has requested a base image of `" : String).data
    = ("- The user has requested a base image of " : String).data ++ [btick] := by decide

theorem eql9 : ("`. Use this if it is a valid and secure choice, otherwise select a suitable slim or alpine official image.\n" : String).data
    = btick :: (". Use this if it is a valid and secure choice, otherwise select a suitable slim or alpine official image." : String).data
      ++ ['\n'] := by decide

theorem eql10 : ("\n**Instructions & Best Practices to Follow:**\n" : String).data
    = '\n' :: ("**Instructions & Best Practices to Follow:**" : String).data ++ ['\n'] := by decide

theorem eql11 : ("- Use multi-stage builds. The first stage should build dependencies, and the final stage should be a lean image with only the production code and necessary dependencies.\n" : String).data
    = ("- Use multi-stage builds. The first stage should build dependencies, and the final stage should be a lean image with only the production code and necessary dependencies." : String).data
      ++ ['\n'] := by decide

theorem eql12 : ("- Do not run as the `root` user. Create a non-root user (e.g., \u0027appuser\u0027) and switch to it.\n" : String).data
    = ("- Do not run as the " : String).data ++ btick :: ("root" : String).data
      ++ btick :: (" user. Create a non-root user (e.g., \u0027appuser\u0027) and switch to it." : String).data
      ++ ['\n'] := by decide

theorem eql13 : ("- Use a `.dockerignore` file (provide an example of what it should contain in a comment).\n" : String).data
    = ("- Use a " : String).data ++ btick :: (".dockerignore" : String).data
      ++ btick :: (" file (provide an example of what it should contain in a comment)." : String).data
      ++ ['\n'] := by decide

theorem eql14 : ("- Leverage Docker layer caching by copying dependency files and installing packages before copying the rest of the source code.\n" : String).data
    = ("- Leverage Docker layer caching by copying dependency files and installing packages before copying the rest of the source code." : String).data
      ++ ['\n'] := by decide

theorem eql15 : ("- Ensure all permissions are set correctly for the non-root user.\n" : String).data
    = ("- Ensure all permissions are set correctly for the non-root user." : String).data
      ++ ['\n'] := by decide

theorem eql16 : ("- The final output should be only the raw Dockerfile content, without any explanations or markdown formatting like ```dockerfile." : String).data
    = ("- The final output should be only the raw Dockerfile content, without any explanations or markdown formatting like " : String).data
      ++ btick :: btick :: btick :: ("dockerfile." : String).data := by decide

/-- Reassociation of the segmented details block, over abstract chunks. -/
theorem assembleHead (a1 lang b1 pm c1 c2 c3 dep d1 d2 port e1v e2v sc f1 : List Char) :
    ((((((((((a1 ++ ['*']) ++ lang) ++ ('*' :: b1 ++ ['*'])) ++ pm) ++
      ('*' :: c1 ++ '\n' :: '\n' :: c2 ++ '\n' :: c3 ++ [btick])) ++ dep) ++
      (btick :: d1 ++ '\n' :: d2 ++ [btick])) ++ port) ++
      (btick :: e1v ++ '\n' :: e2v ++ [btick])) ++ sc) ++ (btick :: f1 ++ ['\n'])
    = a1 ++ '*' :: (lang ++ '*' :: (b1 ++ '*' :: (pm ++ '*' :: (c1 ++ '\n' ::
      ([] ++ '\n' :: (c2 ++ '\n' :: (c3 ++ btick :: (dep ++ btick :: (d1 ++ '\n' ::
      (d2 ++ btick :: (port ++ btick :: (e1v ++ '\n' :: (e2v ++ btick :: (sc ++ btick ::
      (f1 ++ '\n' :: []))))))))))))))) := by
  simp

/-- Reassociation of an optional line, over abstract chunks. -/
theorem assembleLine (b1 v f1 : List Char) :
    ((b1 ++ [btick]) ++ v) ++ (btick :: f1 ++ ['\n'])
      = b1 ++ btick :: (v ++ btick :: (f1 ++ '\n' :: [])) := by
  simp

/-- Reassociation of the best-practice block, over abstract chunks. -/
theorem assembleTail (i1 j1 k1 k2 k3 m1 m2 m3 p1 q1 r1 r2 : List Char) :
    (((((('\n' :: i1 ++ ['\n']) ++ (j1 ++ ['\n'])) ++
      (k1 ++ btick :: k2 ++ btick :: k3 ++ ['\n'])) ++
      (m1 ++ btick :: m2 ++ btick :: m3 ++ ['\n'])) ++ (p1 ++ ['\n'])) ++
      (q1 ++ ['\n'])) ++ (r1 ++ btick :: btick :: btick :: r2)
    = [] ++ '\n' :: (i1 ++ '\n' :: (j1 ++ '\n' :: (k1 ++ btick :: (k2 ++ btick ::
      (k3 ++ '\n' :: (m1 ++ btick :: (m2 ++ btick :: (m3 ++ '\n' :: (p1 ++ '\n' ::
      (q1 ++ '\n' :: (r1 ++ btick :: ([] ++ btick :: ([] ++ btick :: r2))))))))))))) := by
  simp

/-- The details block, segmented. -/
theorem promptDetails_data_segs (r : DockerfileRequest) :
    (promptDetails r).data = flatSegs (headSegs r) "" := by
  have h := assembleHead
    ("Generate a secure, production-ready, multi-stage Dockerfile for a *" : String).data
    r.language.data
    ("* application using *" : String).data
    r.package_manager.data
    ("*." : String).data
    ("**Application Details:**" : String).data
    ("- The dependency file is named " : String).data
    r.dependency_file.data
    ("." : String).data
    ("- The application runs on and exposes port " : String).data
    (toString r.port).data
    ("." : String).data
    ("- The command to start the application is " : String).data
    r.start_command.data
    ("." : String).data
  rw [← eql1, ← eql2, ← eql3, ← eql4, ← eql5, ← eql6] at h
  exact h

/-- The optional build-command line, segmented. -/
theorem buildSegs_data (bc : Option String) :
    (if truthy bc then "- The build command is `" ++ bc.getD "" ++ "`.\n" else "").data
      = flatSegs (buildSegs bc) "" := by
  cases ht : truthy bc
  · unfold buildSegs
    rw [ht]
    rfl
  · unfold buildSegs
    rw [ht]
    have h := assembleLine ("- The build command is " : String).data
      (bc.getD "").data ("." : String).data
    rw [← eql7, ← eql6] at h
    exact h

/-- The optional base-image line, segmented. -/
theorem baseSegs_data (bi : Option String) :
    (if truthy bi then
        "- The user has requested a base image of `" ++ bi.getD "" ++
          "`. Use this if it is a valid and secure choice, otherwise select a suitable slim or alpine official image.\n"
      else "").data
      = flatSegs (baseSegs bi) "" := by
  cases ht : truthy bi
  · unfold baseSegs
    rw [ht]
    rfl
  · unfold baseSegs
    rw [ht]
    have h := assembleLine ("- The user has requested a base image of " : String).data
      (bi.getD "").data
      (". Use this if it is a valid and secure choice, otherwise select a suitable slim or alpine official image." : String).data
    rw [← eql8, ← eql9] at h
    exact h

/-- The best-practice block, segmented. -/
theorem bestPractices_data_segs :
    bestPractices.data = flatSegs tailSegs "dockerfile." := by
  have h := assembleTail
    ("**Instructions & Best Practices to Follow:**" : String).data
    ("- Use multi-stage builds. The first stage should build dependencies, and the final stage should be a lean image with only the production code and necessary dependencies." : String).data
    ("- Do not run as the " : String).data
    ("root" : String).data
    (" user. Create a non-root user (e.g., \u0027appuser\u0027) and switch to it." : String).data
    ("- Use a " : String).data
    (".dockerignore" : String).data
    (" file (provide an example of what it should contain in a comment)." : String).data
    ("- Leverage Docker layer caching by copying dependency files and installing packages before copying the rest of the source code." : String).data
    ("- Ensure all permissions are set correctly for the non-root user." : String).data
    ("- The final output should be only the raw Dockerfile content, without any explanations or markdown formatting like " : String).data
    ("dockerfile." : String).data
  rw [← eql10, ← eql11, ← eql12, ← eql13, ← eql14, ← eql15, ← eql16] at h
  exact h

theorem create_prompt_data_segs (r : DockerfileRequest) :
    (create_prompt r).data = flatSegs (promptSegs r) "dockerfile." := by
  have hsplit : flatSegs (promptSegs r) "dockerfile."
      = ((flatSegs (headSegs r) "" ++ flatSegs (buildSegs r.build_command) "")
          ++ flatSegs (baseSegs r.base_image) "") ++ flatSegs tailSegs "dockerfile." := by
    unfold promptSegs
    rw [flatSegs_append, flatSegs_append, flatSegs_append]
  rw [hsplit, ← promptDetails_data_segs, ← buildSegs_data, ← baseSegs_data,
    ← bestPractices_data_segs]
  rfl

theorem occCount_pos {pat s : List Char} (h : pat <:+: s) : 1 ≤ occCount s pat := by
  obtain ⟨a, t, rfl⟩ := h
  induction a with
  | nil =>
    cases pat with
    | nil =>
      cases t with
      | nil => simp [occCount]
      | cons c t => simp [occCount]
    | cons p ps =>
      have hp : List.isPrefixOf (p :: ps) ((p :: ps) ++ t) = true :=
        List.isPrefixOf_iff_prefix.mpr ⟨t, rfl⟩
      rw [List.nil_append, List.cons_append]
      rw [List.cons_append] at hp
      simp only [occCount, hp, if_true]
      exact Nat.le_add_right _ _
  | cons c a ih =>
    have : occCount ((c :: a) ++ pat ++ t) pat
        = (if List.isPrefixOf pat ((c :: a) ++ pat ++ t) then 1 else 0)
          + occCount (a ++ pat ++ t) pat := by
      rw [List.cons_append, List.cons_append, occCount]
    rw [this]
    exact le_trans ih (Nat.le_add_left _ _)

theorem within_cons {m l : List Char} (c : Char) (h : m <:+: l) : m <:+: c :: l := by
  obtain ⟨s, t, rfl⟩ := h
  exact ⟨c :: s, t, by simp⟩

theorem within_flatSegs_of_mem (s : String) (c : Char) {ps : List (String × Char)}
    (last : String) (h : (s, c) ∈ ps) : s.data <:+: flatSegs ps last := by
  induction ps with
  | nil => cases h
  | cons p ps ih =>
    rcases List.mem_cons.mp h with heq | h'
    · cases heq
      exact ⟨[], c :: flatSegs ps last, by simp [flatSegs]⟩
    · cases p with
      | mk s' c' =>
        exact within_append_right _ (within_cons _ (ih h'))


/-- Every flanking character in the segmented prompt is `*`, a backtick or
a newline. -/
theorem promptSegs_snd (r : DockerfileRequest) :
    ∀ p ∈ promptSegs r, p.2 = '*' ∨ p.2 = btick ∨ p.2 = '\n' := by
  intro p hp
  simp only [promptSegs, List.mem_append] at hp
  rcases hp with ((h | h) | h) | h
  · simp only [headSegs, List.mem_cons, List.not_mem_nil, or_false] at h
    rcases h with rfl|rfl|rfl|rfl|rfl|rfl|rfl|rfl|rfl|rfl|rfl|rfl|rfl|rfl|rfl|rfl <;> simp
  · simp only [buildSegs] at h
    rcases hb : truthy r.build_command with _ | _ <;> rw [hb] at h
    · simp at h
    · simp only [if_true, List.mem_cons, List.not_mem_nil, or_false] at h
      rcases h with rfl|rfl|rfl <;> simp
  · simp only [baseSegs] at h
    rcases hb : truthy r.base_image with _ | _ <;> rw [hb] at h
    · simp at h
    · simp only [if_true, List.mem_cons, List.not_mem_nil, or_false] at h
      rcases h with rfl|rfl|rfl <;> simp
  · simp only [tailSegs, List.mem_cons, List.not_mem_nil, or_false] at h
    rcases h with rfl|rfl|rfl|rfl|rfl|rfl|rfl|rfl|rfl|rfl|rfl|rfl|rfl|rfl <;> simp

/-- A pattern that avoids `*`, backtick and newline and does not occur in
any chunk of the segmented prompt does not occur in the prompt at all. -/
theorem marker_not_in_prompt (m : List Char) (r : DockerfileRequest)
    (hstar : ('*' : Char) ∉ m) (hbt : (btick : Char) ∉ m) (hnl : ('\n' : Char) ∉ m)
    (hhead : ∀ p ∈ headSegs r, ¬ m <:+: p.1.data)
    (hbuild : ∀ p ∈ buildSegs r.build_command, ¬ m <:+: p.1.data)
    (hbase : ∀ p ∈ baseSegs r.base_image, ¬ m <:+: p.1.data)
    (htail : ∀ p ∈ tailSegs, ¬ m <:+: p.1.data)
    (hlast : ¬ m <:+: ("dockerfile." : String).data) :
    ¬ m <:+: (create_prompt r).data := by
  rw [create_prompt_data_segs]
  apply not_within_flatSegs _ _ _ _ hlast
  intro p hp
  constructor
  · rcases promptSegs_snd r p hp with h2 | h2 | h2 <;> rw [h2] <;> assumption
  · simp only [promptSegs, List.mem_append] at hp
    rcases hp with ((h | h) | h) | h
    · exact hhead p h
    · exact hbuild p h
    · exact hbase p h
    · exact htail p h


theorem start_command_within (r : DockerfileRequest) :
    r.start_command.data <:+: (create_prompt r).data := by
  rw [create_prompt_data_segs]
  exact within_flatSegs_of_mem r.start_command btick _ (by simp [promptSegs, headSegs])

/-- A concrete valid request payload. -/
def cxRaw : RawRequest :=
  { language := some (Json.str "Go"), package_manager := some (Json.str "go"),
    dependency_file := some (Json.str "application"), port := some (Json.num 1),
    start_command := some (Json.str "./app") }

/-- The descriptor `cxRaw` validates to. -/
def cxReq : DockerfileRequest :=
  { language := "Go", package_manager := "go", dependency_file := "application",
    port := 1, start_command := "./app" }

/-- C1 counterexample: `cxReq` is a valid descriptor (its payload passes
validation), yet its dependency-file name `"application"` occurs three
times, not exactly once, in the details block — the fixed template text
(`... application using ...`, `The application runs on ...`) already
contains it. -/
theorem cx_details_field_not_exactly_once :
    validate cxRaw = Except.ok cxReq ∧
    occCount (promptDetails cxReq).data cxReq.dependency_file.data ≠ 1 := by
  exact ⟨rfl, by decide⟩

/-- C1 amended: every field value of the descriptor occurs at least once in
the details block (language, package manager, dependency file, port and
start command each occur as a substring, hence with occurrence count at
least one), and the details block is a prefix of the returned prompt. -/
theorem create_prompt_details_contains_fields (r : DockerfileRequest) :
    r.language.data <:+: (promptDetails r).data ∧
    r.package_manager.data <:+: (promptDetails r).data ∧
    r.dependency_file.data <:+: (promptDetails r).data ∧
    (toString r.port).data <:+: (promptDetails r).data ∧
    r.start_command.data <:+: (promptDetails r).data ∧
    (promptDetails r).data <+: (create_prompt r).data ∧
    1 ≤ occCount (promptDetails r).data r.language.data ∧
    1 ≤ occCount (promptDetails r).data r.package_manager.data ∧
    1 ≤ occCount (promptDetails r).data r.dependency_file.data ∧
    1 ≤ occCount (promptDetails r).data (toString r.port).data ∧
    1 ≤ occCount (promptDetails r).data r.start_command.data := by
  have h1 : r.language.data <:+: (promptDetails r).data := by
    rw [promptDetails_data_segs]
    exact within_flatSegs_of_mem r.language '*' _ (by simp [headSegs])
  have h2 : r.package_manager.data <:+: (promptDetails r).data := by
    rw [promptDetails_data_segs]
    exact within_flatSegs_of_mem r.package_manager '*' _ (by simp [headSegs])
  have h3 : r.dependency_file.data <:+: (promptDetails r).data := by
    rw [promptDetails_data_segs]
    exact within_flatSegs_of_mem r.dependency_file btick _ (by simp [headSegs])
  have h4 : (toString r.port).data <:+: (promptDetails r).data := by
    rw [promptDetails_data_segs]
    exact within_flatSegs_of_mem (toString r.port) btick _ (by simp [headSegs])
  have h5 : r.start_command.data <:+: (promptDetails r).data := by
    rw [promptDetails_data_segs]
    exact within_flatSegs_of_mem r.start_command btick _ (by simp [headSegs])
  have hp : (promptDetails r).data <+: (create_prompt r).data := by
    simp only [create_prompt, data_append, List.append_assoc]
    exact ⟨_, rfl⟩
  exact ⟨h1, h2, h3, h4, h5, hp, occCount_pos h1, occCount_pos h2,
    occCount_pos h3, occCount_pos h4, occCount_pos h5⟩

/-- C2: the prompt of every descriptor ends with the fixed best-practice
directive block, verbatim (the block is the constant `bestPractices`,
whose directives appear in the fixed source order), whatever the field
values are. -/
theorem create_prompt_ends_with_best_practices (r : DockerfileRequest) :
    ∃ p : String, create_prompt r = p ++ bestPractices :=
  ⟨_, rfl⟩

/-- C5: `create_prompt` is deterministic — two calls on identical
descriptors return byte-identical prompt strings. -/
theorem create_prompt_deterministic (r₁ r₂ : DockerfileRequest)
    (h : r₁ = r₂) : create_prompt r₁ = create_prompt r₂ := by
  rw [h]

/-- A sample descriptor from the spec. -/
def pyReq : DockerfileRequest :=
  { language := "Python", package_manager := "pip",
    dependency_file := "requirements.txt", port := 8000,
    start_command := "python app.py" }

theorem create_prompt_deterministic_witness :
    create_prompt pyReq = create_prompt pyReq :=
  create_prompt_deterministic pyReq pyReq rfl

theorem flatSegs_eq_nil {ps : List (String × Char)} {last : String}
    (h : flatSegs ps last = []) : last.data = [] := by
  cases ps with
  | nil => exact h
  | cons p ps =>
    cases p with
    | mk s c => simp [flatSegs] at h

/-- C6: `create_prompt` is total — for every descriptor, with any
combination of present and absent optional fields, it returns a (nonempty)
string. -/
theorem create_prompt_total (r : DockerfileRequest) (bc bi : Option String) :
    create_prompt { r with build_command := bc, base_image := bi } ≠ "" := by
  intro h
  have hd : (create_prompt { r with build_command := bc, base_image := bi }).data = [] :=
    congrArg String.data h
  rw [create_prompt_data_segs] at hd
  exact absurd (flatSegs_eq_nil hd) (by decide)

/-- A valid payload whose port is 70000, above the network port range. -/
def rawPortHuge : RawRequest :=
  { language := some (Json.str "Python"), package_manager := some (Json.str "pip"),
    dependency_file := some (Json.str "requirements.txt"),
    port := some (Json.num 70000), start_command := some (Json.str "python app.py") }

/-- A valid payload whose port is 0, below the network port range. -/
def rawPortZero : RawRequest :=
  { language := some (Json.str "Python"), package_manager := some (Json.str "pip"),
    dependency_file := some (Json.str "requirements.txt"),
    port := some (Json.num 0), start_command := some (Json.str "python app.py") }

/-- C7 counterexample: construction does not fail for integer ports
outside 1–65535 — the payloads with port 70000 and port 0 both validate
successfully, because the schema constrains `port` only to be an
integer. -/
theorem cx_port_range_not_validated :
    validate rawPortHuge = Except.ok { pyReq with port := 70000 } ∧
    validate rawPortZero = Except.ok { pyReq with port := 0 } :=
  ⟨rfl, rfl⟩

/-- C7 amended: constructing a `DockerfileRequest` succeeds for every
integer port whatsoever; validation happens wholly at construction but
checks only presence and type of the fields, not the 1–65535 range. -/
theorem validate_accepts_any_integer_port (l p d s : String) (n : Int) :
    validate
      { language := some (Json.str l), package_manager := some (Json.str p),
        dependency_file := some (Json.str d), port := some (Json.num n),
        start_command := some (Json.str s) }
      = Except.ok
          { language := l, package_manager := p, dependency_file := d,
            port := n, start_command := s } :=
  rfl

/-- C10: an optional field supplied as the empty string is falsy in the
truthiness test of the source, so it yields exactly the prompt of the
corresponding absent field. -/
theorem create_prompt_empty_optional_as_absent (r : DockerfileRequest) :
    create_prompt { r with build_command := some "" }
      = create_prompt { r with build_command := none } ∧
    create_prompt { r with base_image := some "" }
      = create_prompt { r with base_image := none } ∧
    create_prompt { r with build_command := some "", base_image := some "" }
      = create_prompt { r with build_command := none, base_image := none } :=
  ⟨rfl, rfl, rfl⟩

/-- The identifying text of the build-command line. -/
def bcMarker : String := "- The build command is"

/-- The identifying text of the base-image line. -/
def biMarker : String := "- The user has requested a base image of"

/-- A descriptor whose build_command is supplied but empty. -/
def cxBcEmpty : DockerfileRequest :=
  { pyReq with build_command := some "" }

/-- A descriptor without build_command whose start_command contains the
build-command line text. -/
def cxBcInject : DockerfileRequest :=
  { pyReq with start_command := "- The build command is `make` && python app.py" }

/-- C3 counterexample: both directions of "the build_command line appears
iff build_command was supplied" fail — a supplied-but-empty
`build_command` produces a prompt without the line (Python truthiness
drops it), and with no `build_command` supplied the line text can still
appear in the prompt, injected through `start_command`. -/
theorem cx_build_command_line_iff :
    (cxBcEmpty.build_command ≠ none ∧
      ¬ bcMarker.data <:+: (create_prompt cxBcEmpty).data) ∧
    (cxBcInject.build_command = none ∧
      bcMarker.data <:+: (create_prompt cxBcInject).data) := by
  refine ⟨⟨by decide, ?_⟩, rfl, ?_⟩
  · apply marker_not_in_prompt <;> decide
  · exact within_trans
      (show bcMarker.data <:+: cxBcInject.start_command.data by decide)
      (start_command_within cxBcInject)

/-- C3 amended: the build-command line appears iff `build_command` is
supplied with a non-empty value.  Precisely: (1) if `build_command` is a
non-empty string, the exact line is a substring of the prompt; (2) if it
is absent or empty, the prompt is byte-identical to the prompt of the
descriptor without `build_command`; (3) in that case the line text occurs
nowhere in the prompt, provided no other field value injects it. -/
theorem create_prompt_build_command_line (r : DockerfileRequest) :
    (∀ s, r.build_command = some s → s ≠ "" →
      ("- The build command is `" ++ s ++ "`.\n").data <:+: (create_prompt r).data) ∧
    (truthy r.build_command = false →
      create_prompt r = create_prompt { r with build_command := none }) ∧
    (truthy r.build_command = false →
      ¬ bcMarker.data <:+: r.language.data →
      ¬ bcMarker.data <:+: r.package_manager.data →
      ¬ bcMarker.data <:+: r.dependency_file.data →
      ¬ bcMarker.data <:+: (toString r.port).data →
      ¬ bcMarker.data <:+: r.start_command.data →
      (∀ s, r.base_image = some s → ¬ bcMarker.data <:+: s.data) →
      ¬ bcMarker.data <:+: (create_prompt r).data) := by
  refine ⟨?_, ?_, ?_⟩
  · intro s hs hne
    have ht : truthy r.build_command = true := by
      rw [hs]; simp [truthy, hne]
    have hd : r.build_command.getD "" = s := by rw [hs]; rfl
    simp only [create_prompt, ht, if_true, hd, data_append]
    exact within_append_left _ (within_append_left _
      (within_append_right _ (within_refl _)))
  · intro h
    obtain ⟨l, p, d, po, sc, bc, bi⟩ := r
    rcases bc with _ | s
    · rfl
    · have hs : s = "" := by simpa [truthy] using h
      subst hs
      rfl
  · intro h h1 h2 h3 h4 h5 h6
    apply marker_not_in_prompt
    · decide
    · decide
    · decide
    · intro p hp
      simp only [headSegs, List.mem_cons, List.not_mem_nil, or_false] at hp
      rcases hp with rfl|rfl|rfl|rfl|rfl|rfl|rfl|rfl|rfl|rfl|rfl|rfl|rfl|rfl|rfl|rfl <;>
        first | assumption | decide
    · intro p hp
      simp [buildSegs, h] at hp
    · intro p hp
      cases ht : truthy r.base_image with
      | false => simp [baseSegs, ht] at hp
      | true =>
        rw [baseSegs, ht, if_pos rfl] at hp
        simp only [List.mem_cons, List.not_mem_nil, or_false] at hp
        rcases hp with rfl|rfl|rfl
        · decide
        · rcases hbo : r.base_image with _ | s
          · rw [hbo] at ht
            simp [truthy] at ht
          · have hx := h6 s hbo
            simpa using hx
        · decide
    · intro p hp
      revert p hp
      decide
    · decide

/-- A descriptor whose build_command is supplied non-empty and whose other
fields are plain. -/
def wBc : DockerfileRequest :=
  { pyReq with build_command := some "pip wheel ." }

theorem create_prompt_build_command_line_witness :
    ("- The build command is `" ++ "pip wheel ." ++ "`.\n").data
        <:+: (create_prompt wBc).data ∧
    create_prompt cxBcEmpty = create_prompt pyReq ∧
    ¬ bcMarker.data <:+: (create_prompt pyReq).data := by
  refine ⟨(create_prompt_build_command_line wBc).1 "pip wheel ." rfl (by decide), ?_, ?_⟩
  · exact (create_prompt_build_command_line cxBcEmpty).2.1 rfl
  · exact (create_prompt_build_command_line pyReq).2.2 rfl (by decide) (by decide)
      (by decide) (by decide) (by decide) (by intro s hs; cases hs)

/-- A descriptor whose base_image is supplied but empty. -/
def cxBiEmpty : DockerfileRequest :=
  { pyReq with base_image := some "" }

/-- A descriptor without base_image whose start_command contains the
base-image line text. -/
def cxBiInject : DockerfileRequest :=
  { pyReq with start_command := "- The user has requested a base image of `x` && python app.py" }

/-- C4 counterexample: both directions of "the base_image line appears iff
base_image was supplied" fail — a supplied-but-empty `base_image`
produces a prompt without the line (Python truthiness drops it), and with
no `base_image` supplied the line text can still appear in the prompt,
injected through `start_command`. -/
theorem cx_base_image_line_iff :
    (cxBiEmpty.base_image ≠ none ∧
      ¬ biMarker.data <:+: (create_prompt cxBiEmpty).data) ∧
    (cxBiInject.base_image = none ∧
      biMarker.data <:+: (create_prompt cxBiInject).data) := by
  refine ⟨⟨by decide, ?_⟩, rfl, ?_⟩
  · apply marker_not_in_prompt <;> decide
  · exact within_trans
      (show biMarker.data <:+: cxBiInject.start_command.data by decide)
      (start_command_within cxBiInject)

/-- C4 amended: the base-image line appears iff `base_image` is supplied
with a non-empty value.  Precisely: (1) if `base_image` is a non-empty
string, the exact line — requesting use of the given image when valid and
secure, with a fallback to a suitable slim or alpine official image — is
a substring of the prompt; (2) if it is absent or empty, the prompt is
byte-identical to the prompt of the descriptor without `base_image`;
(3) in that case the line text occurs nowhere in the prompt, provided no
other field value injects it. -/
theorem create_prompt_base_image_line (r : DockerfileRequest) :
    (∀ s, r.base_image = some s → s ≠ "" →
      ("- The user has requested a base image of `" ++ s ++
        "`. Use this if it is a valid and secure choice, otherwise select a suitable slim or alpine official image.\n").data
        <:+: (create_prompt r).data) ∧
    (truthy r.base_image = false →
      create_prompt r = create_prompt { r with base_image := none }) ∧
    (truthy r.base_image = false →
      ¬ biMarker.data <:+: r.language.data →
      ¬ biMarker.data <:+: r.package_manager.data →
      ¬ biMarker.data <:+: r.dependency_file.data →
      ¬ biMarker.data <:+: (toString r.port).data →
      ¬ biMarker.data <:+: r.start_command.data →
      (∀ s, r.build_command = some s → ¬ biMarker.data <:+: s.data) →
      ¬ biMarker.data <:+: (create_prompt r).data) := by
  refine ⟨?_, ?_, ?_⟩
  · intro s hs hne
    have ht : truthy r.base_image = true := by
      rw [hs]; simp [truthy, hne]
    have hd : r.base_image.getD "" = s := by rw [hs]; rfl
    simp only [create_prompt, ht, if_true, hd, data_append]
    exact within_append_left _ (within_append_right _ (within_refl _))
  · intro h
    obtain ⟨l, p, d, po, sc, bc, bi⟩ := r
    rcases bi with _ | s
    · rfl
    · have hs : s = "" := by simpa [truthy] using h
      subst hs
      rfl
  · intro h h1 h2 h3 h4 h5 h6
    apply marker_not_in_prompt
    · decide
    · decide
    · decide
    · intro p hp
      simp only [headSegs, List.mem_cons, List.not_mem_nil, or_false] at hp
      rcases hp with rfl|rfl|rfl|rfl|rfl|rfl|rfl|rfl|rfl|rfl|rfl|rfl|rfl|rfl|rfl|rfl <;>
        first | assumption | decide
    · intro p hp
      cases ht : truthy r.build_command with
      | false => simp [buildSegs, ht] at hp
      | true =>
        rw [buildSegs, ht, if_pos rfl] at hp
        simp only [List.mem_cons, List.not_mem_nil, or_false] at hp
        rcases hp with rfl|rfl|rfl
        · decide
        · rcases hbo : r.build_command with _ | s
          · rw [hbo] at ht
            simp [truthy] at ht
          · have hx := h6 s hbo
            simpa using hx
        · decide
    · intro p hp
      simp [baseSegs, h] at hp
    · intro p hp
      revert p hp
      decide
    · decide

/-- A descriptor whose base_image is supplied non-empty and whose other
fields are plain. -/
def wBi : DockerfileRequest :=
  { pyReq with base_image := some "python:3.12-slim" }

theorem create_prompt_base_image_line_witness :
    ("- The user has requested a base image of `" ++ "python:3.12-slim" ++
        "`. Use this if it is a valid and secure choice, otherwise select a suitable slim or alpine official image.\n").data
      <:+: (create_prompt wBi).data ∧
    create_prompt cxBiEmpty = create_prompt pyReq ∧
    ¬ biMarker.data <:+: (create_prompt pyReq).data := by
  refine ⟨(create_prompt_base_image_line wBi).1 "python:3.12-slim" rfl (by decide), ?_, ?_⟩
  · exact (create_prompt_base_image_line cxBiEmpty).2.1 rfl
  · exact (create_prompt_base_image_line pyReq).2.2 rfl (by decide) (by decide)
      (by decide) (by decide) (by decide) (by intro s hs; cases hs)

/-- A payload is missing a required field. -/
def requiredMissing (raw : RawRequest) : Prop :=
  raw.language = none ∨ raw.package_manager = none ∨
  raw.dependency_file = none ∨ raw.port = none ∨ raw.start_command = none

/-- A payload carries a port that is not an integer. -/
def portNotInt (raw : RawRequest) : Prop :=
  ∀ n : Int, raw.port ≠ some (Json.num n)

theorem lang_err {raw : RawRequest} (h : raw.language = none) :
    "language" ∈ reqErrors raw := by
  simp [reqErrors, checkStr, h]

theorem pm_err {raw : RawRequest} (h : raw.package_manager = none) :
    "package_manager" ∈ reqErrors raw := by
  simp [reqErrors, checkStr, h]

theorem dep_err {raw : RawRequest} (h : raw.dependency_file = none) :
    "dependency_file" ∈ reqErrors raw := by
  simp [reqErrors, checkStr, h]

theorem sc_err {raw : RawRequest} (h : raw.start_command = none) :
    "start_command" ∈ reqErrors raw := by
  simp [reqErrors, checkStr, h]

theorem port_err {raw : RawRequest} (h : portNotInt raw) :
    "port" ∈ reqErrors raw := by
  rcases hp : raw.port with _ | j
  · simp [reqErrors, checkInt, hp]
  · rcases j with s | n | _
    · simp [reqErrors, checkInt, hp]
    · exact absurd hp (h n)
    · simp [reqErrors, checkInt, hp]

theorem port_none_err {raw : RawRequest} (h : raw.port = none) :
    "port" ∈ reqErrors raw := by
  simp [reqErrors, checkInt, h]

/-- C8: a payload that misses a required field or carries a non-integer
port is rejected with a 422 validation error listing the offending field
names (the missing/ill-typed field is among them); the response does not
depend on the model invoker, which is never consulted. -/
theorem generate_rejects_invalid (raw : RawRequest)
    (invoke : String → GenResult)
    (h : requiredMissing raw ∨ portNotInt raw) :
    generate_dockerfile raw invoke = Resp.validationError (reqErrors raw) ∧
    statusOf (generate_dockerfile raw invoke) = 422 ∧
    (raw.language = none → "language" ∈ reqErrors raw) ∧
    (raw.package_manager = none → "package_manager" ∈ reqErrors raw) ∧
    (raw.dependency_file = none → "dependency_file" ∈ reqErrors raw) ∧
    (raw.port = none → "port" ∈ reqErrors raw) ∧
    (raw.start_command = none → "start_command" ∈ reqErrors raw) ∧
    (portNotInt raw → "port" ∈ reqErrors raw) ∧
    (∀ invoke2 : String → GenResult,
      generate_dockerfile raw invoke2 = generate_dockerfile raw invoke) := by
  have hne : reqErrors raw ≠ [] := by
    rcases h with (h | h | h | h | h) | h
    · exact List.ne_nil_of_mem (lang_err h)
    · exact List.ne_nil_of_mem (pm_err h)
    · exact List.ne_nil_of_mem (dep_err h)
    · exact List.ne_nil_of_mem (port_none_err h)
    · exact List.ne_nil_of_mem (sc_err h)
    · exact List.ne_nil_of_mem (port_err h)
  have hval : validate raw = Except.error (reqErrors raw) := by
    rw [validate, if_neg hne]
  have hgen : ∀ g : String → GenResult,
      generate_dockerfile raw g = Resp.validationError (reqErrors raw) := by
    intro g
    rw [generate_dockerfile, hval]
  refine ⟨hgen invoke, by rw [hgen invoke]; rfl, fun h => lang_err h,
    fun h => pm_err h, fun h => dep_err h, fun h => port_none_err h,
    fun h => sc_err h, fun h => port_err h,
    fun g2 => by rw [hgen g2, hgen invoke]⟩

/-- A payload that omits the required start_command. -/
def rawMissingStart : RawRequest :=
  { language := some (Json.str "Python"), package_manager := some (Json.str "pip"),
    dependency_file := some (Json.str "requirements.txt"),
    port := some (Json.num 8000) }

theorem generate_rejects_invalid_witness :
    generate_dockerfile rawMissingStart
        (fun _ => GenResult.responded (some "FROM python"))
      = Resp.validationError (reqErrors rawMissingStart) ∧
    "start_command" ∈ reqErrors rawMissingStart := by
  have h := generate_rejects_invalid rawMissingStart
    (fun _ => GenResult.responded (some "FROM python"))
    (Or.inl (Or.inr (Or.inr (Or.inr (Or.inr rfl)))))
  exact ⟨h.1, h.2.2.2.2.2.2.1 rfl⟩

/-- C9: whenever the payload validates but the model call fails — the call
raises, the response has no `text` attribute, or the text is empty — the
endpoint answers 500 with the fixed generic detail message; the response
is the same for every failing invoker (in particular it carries no text
derived from the provider exception). -/
theorem generate_failure_responds_500 (raw : RawRequest)
    (request : DockerfileRequest) (invoke : String → GenResult)
    (hv : validate raw = Except.ok request)
    (hf : isGenFailure (invoke (create_prompt request)) = true) :
    generate_dockerfile raw invoke = Resp.serverError genericDetail ∧
    statusOf (generate_dockerfile raw invoke) = 500 ∧
    (∀ invoke2 : String → GenResult,
      isGenFailure (invoke2 (create_prompt request)) = true →
      generate_dockerfile raw invoke2 = generate_dockerfile raw invoke) := by
  have key : ∀ g : String → GenResult,
      isGenFailure (g (create_prompt request)) = true →
      generate_dockerfile raw g = Resp.serverError genericDetail := by
    intro g hg
    rcases hr : g (create_prompt request) with msg | t
    · simp [generate_dockerfile, hv, hr]
    · rcases t with _ | t
      · simp [generate_dockerfile, hv, hr]
      · have hemp : t = "" := by
          rw [hr] at hg
          simpa [isGenFailure] using hg
        simp [generate_dockerfile, hv, hr, hemp]
  exact ⟨key invoke hf, by rw [key invoke hf]; rfl,
    fun g2 hg2 => by rw [key g2 hg2, key invoke hf]⟩

/-- A fully valid payload. -/
def rawOk : RawRequest :=
  { language := some (Json.str "Python"), package_manager := some (Json.str "pip"),
    dependency_file := some (Json.str "requirements.txt"),
    port := some (Json.num 8000), start_command := some (Json.str "python app.py") }

theorem generate_failure_responds_500_witness :
    generate_dockerfile rawOk (fun _ => GenResult.raised "connection reset by provider")
      = Resp.serverError genericDetail :=
  (generate_failure_responds_500 rawOk pyReq
    (fun _ => GenResult.raised "connection reset by provider") rfl rfl).1

theorem create_prompt_total_witness :
    create_prompt { pyReq with build_command := none, base_image := none } ≠ "" :=
  create_prompt_total pyReq none none
